import Mathlib

/-!
Verification development for the Travel-Planner backend
(`backend/server.py`).  The Python source is shallowly embedded below:

* Python `float` values are modelled as rational numbers (`ℚ`); every
  numeric literal in the source data is an exact decimal, so `ℚ`
  represents them exactly.
* Python `dict.get(key, default)` over the small literal tables is
  modelled as a chain of `if key = … then …` tests, one per table key.
* `datetime` values are modelled by their proleptic-Gregorian day
  ordinal (an integer); subtracting two date ordinals gives exactly the
  `.days` of the corresponding `timedelta`.
* `datetime.now()` is passed in explicitly as the `today` parameter.
* The external LLM call inside `get_ai_recommendations` is abstracted as
  an `Except String String` oracle argument: `Except.ok r` models a
  successful call returning text `r`, `Except.error e` models any
  exception raised inside the `try` block.
* Python's `sorted` is a stable sort; a stable sort by a total preorder
  has a unique possible output, so it is modelled by Mathlib's stable
  `List.insertionSort` over the key order `(-rating, price_per_night)`.
-/

namespace TravelPlanner

/-- ASCII lower-casing of one character, as Python `str.lower` acts on the
ASCII inputs used by this service. -/
def lowerChar (c : Char) : Char :=
  if 'A' ≤ c ∧ c ≤ 'Z' then Char.ofNat (c.toNat + 32) else c

/-- ASCII upper-casing of one character. -/
def upperChar (c : Char) : Char :=
  if 'a' ≤ c ∧ c ≤ 'z' then Char.ofNat (c.toNat - 32) else c

/-- ASCII letter test, mirroring Python's notion of a cased character for
the ASCII inputs handled here. -/
def asciiAlpha (c : Char) : Bool :=
  ('a' ≤ c ∧ c ≤ 'z') ∨ ('A' ≤ c ∧ c ≤ 'Z')

/-- Python `str.lower()`. -/
def pyLower (s : String) : String := ⟨s.data.map lowerChar⟩

/-- Python `str.replace(" ", "")`: delete every space. -/
def removeSpaces (s : String) : String := ⟨s.data.filter (fun c => c ≠ ' ')⟩

/-- Python `str.strip()`: drop leading and trailing whitespace. -/
def pyStrip (s : String) : String :=
  ⟨(s.data.dropWhile Char.isWhitespace).reverse.dropWhile Char.isWhitespace |>.reverse⟩

/-- Helper for `pyTitle`: the boolean records whether the previous
character was a cased (alphabetic) character. -/
def titleAux : Bool → List Char → List Char
  | _, [] => []
  | prevAlpha, c :: cs =>
    (if asciiAlpha c then (if prevAlpha then lowerChar c else upperChar c) else c)
      :: titleAux (asciiAlpha c) cs

/-- Python `str.title()`: upper-case each letter that follows a
non-letter, lower-case every other letter. -/
def pyTitle (s : String) : String := ⟨titleAux false s.data⟩

/-- Digit test on the ASCII code point. -/
def digitChar (c : Char) : Bool := 48 ≤ c.toNat ∧ c.toNat ≤ 57

/-- Parse a non-empty all-digit character list as a natural number. -/
def digitsToNat? (l : List Char) : Option ℕ :=
  if l ≠ [] ∧ l.all digitChar then
    some (l.foldl (fun acc c => 10 * acc + (c.toNat - 48)) 0)
  else none

/-- Split a character list on a separator character (Python
`str.split(sep)` semantics: `n` separators yield `n+1` groups). -/
def splitOnChar (sep : Char) : List Char → List (List Char)
  | [] => [[]]
  | c :: cs =>
    let r := splitOnChar sep cs
    if c = sep then [] :: r
    else
      match r with
      | [] => [[c]]
      | g :: gs => (c :: g) :: gs

/-- Gregorian leap-year test. -/
def isLeap (y : ℕ) : Bool := (y % 4 = 0 ∧ y % 100 ≠ 0) ∨ y % 400 = 0

/-- Days in a month of the Gregorian calendar. -/
def daysInMonth (y m : ℕ) : ℕ :=
  if m = 2 then (if isLeap y then 29 else 28)
  else if m = 4 ∨ m = 6 ∨ m = 9 ∨ m = 11 then 30
  else 31

/-- Day ordinal of a Gregorian calendar date (days-from-civil algorithm;
year ≥ 1, month in 1..12, day ≥ 1 as guaranteed by `fromisoformat`). -/
def daysFromCivil (y m d : ℕ) : ℤ :=
  let yAdj := if m ≤ 2 then y - 1 else y
  let era := yAdj / 400
  let yoe := yAdj % 400
  let mp := (m + 9) % 12
  let doy := (153 * mp + 2) / 5 + d - 1
  let doe := yoe * 365 + yoe / 4 - yoe / 100 + doy
  (era * 146097 + doe : ℤ) - 719468

/-- Python `datetime.fromisoformat` restricted to the `YYYY-MM-DD`
calendar-date form this API exchanges; the result is the date's day
ordinal, `none` modelling the `ValueError` raised on malformed input. -/
def fromisoformat (s : String) : Option ℤ :=
  match splitOnChar '-' s.data with
  | [ys, ms, ds] =>
    match digitsToNat? ys, digitsToNat? ms, digitsToNat? ds with
    | some y, some m, some d =>
      if ys.length = 4 ∧ ms.length = 2 ∧ ds.length = 2 ∧
          1 ≤ m ∧ m ≤ 12 ∧ 1 ≤ d ∧ d ≤ daysInMonth y m ∧ 1 ≤ y then
        some (daysFromCivil y m d)
      else none
    | _, _, _ => none
  | _ => none

/-- Integer closest to `q`, ties going to the even integer — the rounding
mode of Python's built-in `round` (binary-float representation error is
abstracted away; the values arising here are exact small rationals). -/
def roundHalfEven (q : ℚ) : ℤ :=
  let f := ⌊q⌋
  let r := q - f
  if r < 1/2 then f
  else if 1/2 < r then f + 1
  else if f % 2 = 0 then f else f + 1

/-- Python `round(x, 2)`. -/
def pyRound2 (q : ℚ) : ℚ := (roundHalfEven (q * 100) : ℚ) / 100

/-- Python `repr` of a float that is an exact integer prints a trailing
`.0`; only that case arises for the weather temperatures interpolated
into the fallback string. -/
def pyFloatRepr (q : ℚ) : String :=
  if q.den = 1 then toString q.num ++ ".0" else toString q

/-- `class Hotel(BaseModel)` of `server.py`.  The `id` field (a freshly
generated random UUID string) carries no information and no claim
mentions it, so it is omitted from the embedding. -/
structure Hotel where
  name : String
  location : String
  price_per_night : ℚ
  rating : ℚ
  amenities : List String
  image_url : String
  availability : Bool := true
deriving DecidableEq

/-- One adjusted forecast entry of `WeatherInfo.forecast_days`.  The
`date` is kept as a day ordinal; `strftime("%Y-%m-%d")` formatting of the
ordinal to text is abstracted (it is injective and monotone). -/
structure ForecastDay where
  date : ℤ
  temp : ℚ
  condition : String
  description : String
deriving DecidableEq

/-- `class WeatherInfo(BaseModel)` of `server.py`. -/
structure WeatherInfo where
  location : String
  temperature : ℚ
  condition : String
  humidity : ℤ
  wind_speed : ℚ
  forecast_days : List ForecastDay
deriving DecidableEq

/-- `class TripSearchRequest(BaseModel)` of `server.py`. -/
structure TripSearchRequest where
  destination : String
  checkin_date : String
  checkout_date : String
  guests : ℤ := 2
  budget_range : String := "mid"
deriving DecidableEq

/-- `class TripRecommendation(BaseModel)` of `server.py`. -/
structure TripRecommendation where
  destination : String
  best_hotels : List Hotel
  weather_info : WeatherInfo
  ai_suggestions : String
  estimated_total_cost : ℚ
deriving DecidableEq

/-- First entry of `MOCK_HOTELS["paris"]`. -/
def hotel_grands_boulevards : Hotel :=
  { name := "Hotel des Grands Boulevards", location := "Central Paris",
    price_per_night := 280, rating := 4.5,
    amenities := ["WiFi", "Restaurant", "Bar", "24h Reception"],
    image_url := "https://images.unsplash.com/photo-1564501049412-61c2a3083791?w=400" }

/-- Second entry of `MOCK_HOTELS["paris"]`. -/
def hotel_le_meurice : Hotel :=
  { name := "Le Meurice", location := "Tuileries",
    price_per_night := 850, rating := 4.9,
    amenities := ["Spa", "Michelin Restaurant", "Concierge", "Fitness Center"],
    image_url := "https://images.unsplash.com/photo-1551882547-ff40c63fe5fa?w=400" }

/-- Third entry of `MOCK_HOTELS["paris"]`. -/
def hotel_malte_opera : Hotel :=
  { name := "Hotel Malte Opera", location := "Opera District",
    price_per_night := 195, rating := 4.2,
    amenities := ["WiFi", "Business Center", "Pet Friendly"],
    image_url := "https://images.unsplash.com/photo-1566073771259-6a8506099945?w=400" }

/-- `MOCK_HOTELS["paris"]`. -/
def paris_hotels : List Hotel :=
  [hotel_grands_boulevards, hotel_le_meurice, hotel_malte_opera]

/-- First entry of `MOCK_HOTELS["tokyo"]`. -/
def hotel_aman_tokyo : Hotel :=
  { name := "Aman Tokyo", location := "Otemachi",
    price_per_night := 1200, rating := 4.8,
    amenities := ["Spa", "Pool", "Traditional Tea Service", "City Views"],
    image_url := "https://images.unsplash.com/photo-1540959733332-eab4deabeeaf?w=400" }

/-- Second entry of `MOCK_HOTELS["tokyo"]`. -/
def hotel_shibuya_excel : Hotel :=
  { name := "Shibuya Excel Hotel Tokyu", location := "Shibuya",
    price_per_night := 320, rating := 4.3,
    amenities := ["WiFi", "Restaurant", "Shopping Mall Access"],
    image_url := "https://images.unsplash.com/photo-1549294413-26f195200c16?w=400" }

/-- Third entry of `MOCK_HOTELS["tokyo"]`. -/
def hotel_gracery_shinjuku : Hotel :=
  { name := "Hotel Gracery Shinjuku", location := "Shinjuku",
    price_per_night := 180, rating := 4.1,
    amenities := ["Godzilla Views", "WiFi", "Restaurant"],
    image_url := "https://images.unsplash.com/photo-1571896349842-33c89424de2d?w=400" }

/-- `MOCK_HOTELS["tokyo"]`. -/
def tokyo_hotels : List Hotel :=
  [hotel_aman_tokyo, hotel_shibuya_excel, hotel_gracery_shinjuku]

/-- First entry of `MOCK_HOTELS["new york"]`. -/
def hotel_the_plaza : Hotel :=
  { name := "The Plaza", location := "Fifth Avenue",
    price_per_night := 750, rating := 4.7,
    amenities := ["Spa", "Shopping", "Fine Dining", "Central Park Views"],
    image_url := "https://images.unsplash.com/photo-1566073771259-6a8506099945?w=400" }

/-- Second entry of `MOCK_HOTELS["new york"]`. -/
def hotel_pod_times_square : Hotel :=
  { name := "Pod Hotels Times Square", location := "Times Square",
    price_per_night := 220, rating := 4.2,
    amenities := ["Modern Pods", "Rooftop Bar", "Fitness Center"],
    image_url := "https://images.unsplash.com/photo-1551882547-ff40c63fe5fa?w=400" }

/-- Third entry of `MOCK_HOTELS["new york"]`. -/
def hotel_brooklyn_bridge : Hotel :=
  { name := "1 Hotels Brooklyn Bridge", location := "Brooklyn",
    price_per_night := 385, rating := 4.6,
    amenities := ["Eco-Friendly", "Bridge Views", "Farm-to-Table Restaurant"],
    image_url := "https://images.unsplash.com/photo-1564501049412-61c2a3083791?w=400" }

/-- `MOCK_HOTELS["new york"]` — note the key contains a space. -/
def new_york_hotels : List Hotel :=
  [hotel_the_plaza, hotel_pod_times_square, hotel_brooklyn_bridge]

/-- First entry of the default list passed to `MOCK_HOTELS.get`. -/
def hotel_grand : Hotel :=
  { name := "Grand Hotel", location := "City Center",
    price_per_night := 250, rating := 4.3,
    amenities := ["WiFi", "Restaurant", "Pool"],
    image_url := "https://images.unsplash.com/photo-1566073771259-6a8506099945?w=400" }

/-- Second entry of the default list passed to `MOCK_HOTELS.get`. -/
def hotel_budget_inn : Hotel :=
  { name := "Budget Inn", location := "Downtown",
    price_per_night := 120, rating := 3.8,
    amenities := ["WiFi", "Breakfast"],
    image_url := "https://images.unsplash.com/photo-1551882547-ff40c63fe5fa?w=400" }

/-- The two-hotel default list passed to `MOCK_HOTELS.get` in
`search_trip`. -/
def fallback_hotels : List Hotel := [hotel_grand, hotel_budget_inn]

/-- `MOCK_HOTELS.get(destination_key, fallback)`: keyed lookup in the
three-entry dict, defaulting to the generic list. -/
def MOCK_HOTELS_get (key : String) : List Hotel :=
  if key = "paris" then paris_hotels
  else if key = "tokyo" then tokyo_hotels
  else if key = "new york" then new_york_hotels
  else fallback_hotels

/-- One raw forecast entry of the literal tables in `get_weather_data`
(the hard-coded `"date"` string is replaced before being returned). -/
structure RawForecast where
  date : String
  temp : ℚ
  condition : String
  description : String
deriving DecidableEq

/-- One value of the `weather_data` dict in `get_weather_data`. -/
structure RawWeather where
  temp : ℚ
  condition : String
  humidity : ℤ
  wind : ℚ
  forecast : List RawForecast
deriving DecidableEq

/-- `weather_data["paris"]`. -/
def paris_weather : RawWeather :=
  { temp := 18, condition := "Clear", humidity := 65, wind := 12,
    forecast :=
      [⟨"2024-12-13", 18, "Clear", "clear sky"⟩,
       ⟨"2024-12-14", 16, "Clouds", "few clouds"⟩,
       ⟨"2024-12-15", 14, "Rain", "light rain"⟩,
       ⟨"2024-12-16", 12, "Clouds", "overcast clouds"⟩,
       ⟨"2024-12-17", 15, "Clear", "clear sky"⟩] }

/-- `weather_data["tokyo"]`. -/
def tokyo_weather : RawWeather :=
  { temp := 8, condition := "Clear", humidity := 45, wind := 8,
    forecast :=
      [⟨"2024-12-13", 8, "Clear", "clear sky"⟩,
       ⟨"2024-12-14", 10, "Clouds", "few clouds"⟩,
       ⟨"2024-12-15", 12, "Clear", "clear sky"⟩,
       ⟨"2024-12-16", 9, "Clouds", "scattered clouds"⟩,
       ⟨"2024-12-17", 11, "Clear", "clear sky"⟩] }

/-- `weather_data["new york"]`. -/
def new_york_weather : RawWeather :=
  { temp := 5, condition := "Snow", humidity := 78, wind := 15,
    forecast :=
      [⟨"2024-12-13", 5, "Snow", "light snow"⟩,
       ⟨"2024-12-14", 3, "Clouds", "overcast clouds"⟩,
       ⟨"2024-12-15", 7, "Clear", "clear sky"⟩,
       ⟨"2024-12-16", 4, "Clouds", "broken clouds"⟩,
       ⟨"2024-12-17", 6, "Clear", "clear sky"⟩] }

/-- `weather_data["london"]`. -/
def london_weather : RawWeather :=
  { temp := 12, condition := "Rain", humidity := 85, wind := 18,
    forecast :=
      [⟨"2024-12-13", 12, "Rain", "light rain"⟩,
       ⟨"2024-12-14", 11, "Clouds", "overcast clouds"⟩,
       ⟨"2024-12-15", 13, "Rain", "moderate rain"⟩,
       ⟨"2024-12-16", 10, "Clouds", "broken clouds"⟩,
       ⟨"2024-12-17", 14, "Clouds", "few clouds"⟩] }

/-- `weather_data["barcelona"]`. -/
def barcelona_weather : RawWeather :=
  { temp := 22, condition := "Clear", humidity := 58, wind := 10,
    forecast :=
      [⟨"2024-12-13", 22, "Clear", "clear sky"⟩,
       ⟨"2024-12-14", 24, "Clear", "clear sky"⟩,
       ⟨"2024-12-15", 21, "Clouds", "few clouds"⟩,
       ⟨"2024-12-16", 20, "Clear", "clear sky"⟩,
       ⟨"2024-12-17", 23, "Clear", "clear sky"⟩] }

/-- `weather_data["rome"]`. -/
def rome_weather : RawWeather :=
  { temp := 19, condition := "Clouds", humidity := 72, wind := 14,
    forecast :=
      [⟨"2024-12-13", 19, "Clouds", "scattered clouds"⟩,
       ⟨"2024-12-14", 17, "Rain", "light rain"⟩,
       ⟨"2024-12-15", 20, "Clear", "clear sky"⟩,
       ⟨"2024-12-16", 18, "Clouds", "broken clouds"⟩,
       ⟨"2024-12-17", 21, "Clear", "clear sky"⟩] }

/-- `default_weather` of `get_weather_data`: the fallback for unknown
locations. -/
def default_weather : RawWeather :=
  { temp := 20, condition := "Clear", humidity := 60, wind := 10,
    forecast :=
      [⟨"2024-12-13", 20, "Clear", "clear sky"⟩,
       ⟨"2024-12-14", 22, "Clouds", "few clouds"⟩,
       ⟨"2024-12-15", 18, "Rain", "light rain"⟩,
       ⟨"2024-12-16", 19, "Clouds", "scattered clouds"⟩,
       ⟨"2024-12-17", 21, "Clear", "clear sky"⟩] }

/-- `weather_data.get(location_key, default_weather)`: keyed lookup in
the six-entry dict, defaulting to `default_weather`. -/
def weather_data_get (key : String) : RawWeather :=
  if key = "paris" then paris_weather
  else if key = "tokyo" then tokyo_weather
  else if key = "new york" then new_york_weather
  else if key = "london" then london_weather
  else if key = "barcelona" then barcelona_weather
  else if key = "rome" then rome_weather
  else default_weather

/-- The `for i, day in enumerate(weather["forecast"])` loop of
`get_weather_data`: entry `i` is re-dated to `today + timedelta(days=i)`;
the running index is the first argument. -/
def adjustForecast (today : ℤ) : ℕ → List RawForecast → List ForecastDay
  | _, [] => []
  | i, day :: rest =>
    { date := today + i, temp := day.temp, condition := day.condition,
      description := day.description } :: adjustForecast today (i + 1) rest

/-- `get_weather_data(location)` of `server.py`; `today` stands for
`datetime.now()`. -/
def get_weather_data (location : String) (today : ℤ) : WeatherInfo :=
  let weather := weather_data_get (pyStrip (pyLower location))
  { location := pyTitle location,
    temperature := weather.temp,
    condition := weather.condition,
    humidity := weather.humidity,
    wind_speed := weather.wind,
    forecast_days := adjustForecast today 0 weather.forecast }

/-- The `GET /weather/{location}` handler `get_weather` of `server.py`.
The error side of the `Except` models an `HTTPException` status code;
the handler body has no raise path, so the result is always `.ok`. -/
def get_weather (location : String) (today : ℤ) : Except ℕ WeatherInfo :=
  Except.ok (get_weather_data location today)

/-- The fallback sentence of the `except` branch of
`get_ai_recommendations`, an f-string over the destination and the
current weather.  (`\x27` is the ASCII apostrophe.) -/
def fallback_suggestion (destination : String) (weather : WeatherInfo) : String :=
  "Welcome to " ++ destination ++ "! Based on the current weather (" ++
    pyFloatRepr weather.temperature ++ "°C, " ++ weather.condition ++
    "), it\x27s a great time to explore. Consider the top-rated hotels in your budget range and don\x27t miss the local cuisine!"

/-- `get_ai_recommendations` of `server.py`.  The whole `try` block —
prompt construction plus the awaited LLM call — is abstracted by the
`llm` oracle: `.ok r` is the `response` returned verbatim, `.error e`
is any raised exception, answered by the fallback sentence. -/
def get_ai_recommendations (destination : String) (hotels : List Hotel)
    (weather : WeatherInfo) (budget : String)
    (llm : Except String String) : String :=
  match llm with
  | Except.ok response => response
  | Except.error _ => fallback_suggestion destination weather

/-- The sort key order of `sorted(filtered_hotels, key=lambda x:
(-x.rating, x.price_per_night))`: lexicographic comparison of
`(-rating, price_per_night)`, i.e. descending rating with ties broken by
ascending price. -/
def hotelOrder (a b : Hotel) : Prop :=
  b.rating < a.rating ∨ (a.rating = b.rating ∧ a.price_per_night ≤ b.price_per_night)

instance : DecidableRel hotelOrder := fun a b => by
  unfold hotelOrder; infer_instance

/-- The `destination_key` normalisation of `search_trip`:
`request.destination.lower().replace(" ", "")`. -/
def destination_key (destination : String) : String :=
  removeSpaces (pyLower destination)

/-- The candidate list of `search_trip`: `MOCK_HOTELS.get(destination_key,
[...fallback...])`. -/
def candidate_hotels (destination : String) : List Hotel :=
  MOCK_HOTELS_get (destination_key destination)

/-- The budget filter of `search_trip`. -/
def filtered_hotels (hotels : List Hotel) (budget_range : String) : List Hotel :=
  if budget_range = "low" then hotels.filter (fun h => h.price_per_night < 200)
  else if budget_range = "high" then hotels.filter (fun h => h.price_per_night > 400)
  else hotels

/-- `best_hotels = sorted(filtered_hotels, key=lambda x: (-x.rating,
x.price_per_night))[:3]` of `search_trip`.  Python's `sorted` is stable,
and a stable sort by the total preorder `hotelOrder` has a unique
output, so the stable `List.insertionSort` computes the same list. -/
def best_hotels (destination : String) (budget_range : String) : List Hotel :=
  (List.insertionSort hotelOrder
    (filtered_hotels (candidate_hotels destination) budget_range)).take 3

/-- The `avg_price` expression of `search_trip`: `sum(...) /
len(best_hotels) if best_hotels else 200`. -/
def avg_price (hotels : List Hotel) : ℚ :=
  if hotels ≠ [] then (hotels.map Hotel.price_per_night).sum / hotels.length
  else 200

/-- The `POST /search-trip` handler `search_trip` of `server.py`.
`today` stands for `datetime.now()` inside the weather lookup and `llm`
for the outcome of the external LLM call; `none` models the uncaught
`ValueError` of `datetime.fromisoformat` on a malformed date string. -/
def search_trip (request : TripSearchRequest) (today : ℤ)
    (llm : Except String String) : Option TripRecommendation :=
  let best := best_hotels request.destination request.budget_range
  let weather_info := get_weather_data request.destination today
  let ai_suggestions :=
    get_ai_recommendations request.destination best weather_info request.budget_range llm
  match fromisoformat request.checkout_date, fromisoformat request.checkin_date with
  | some checkout, some checkin =>
    let nights : ℤ := checkout - checkin
    let estimated_cost := avg_price best * (nights : ℚ) * (request.guests : ℚ)
    some { destination := request.destination,
           best_hotels := best,
           weather_info := weather_info,
           ai_suggestions := ai_suggestions,
           estimated_total_cost := pyRound2 estimated_cost }
  | _, _ => none

/-! ## Helper lemmas -/

theorem hotelOrder_total (a b : Hotel) : hotelOrder a b ∨ hotelOrder b a := by
  unfold hotelOrder
  rcases lt_trichotomy a.rating b.rating with h | h | h
  · right; left; exact h
  · rcases le_total a.price_per_night b.price_per_night with hp | hp
    · left; right; exact ⟨h, hp⟩
    · right; right; exact ⟨h.symm, hp⟩
  · left; left; exact h

theorem hotelOrder_trans (a b c : Hotel)
    (h1 : hotelOrder a b) (h2 : hotelOrder b c) : hotelOrder a c := by
  unfold hotelOrder at h1 h2 ⊢
  rcases h1 with h1 | ⟨e1, p1⟩
  · rcases h2 with h2 | ⟨e2, p2⟩
    · exact Or.inl (h2.trans h1)
    · exact Or.inl (e2 ▸ h1)
  · rcases h2 with h2 | ⟨e2, p2⟩
    · exact Or.inl (lt_of_lt_of_le h2 e1.symm.le)
    · exact Or.inr ⟨e1.trans e2, p1.trans p2⟩

instance : IsTotal Hotel hotelOrder := ⟨hotelOrder_total⟩

instance : IsTrans Hotel hotelOrder := ⟨fun a b c => hotelOrder_trans a b c⟩

theorem mem_filtered_of_mem_best {d b : String} {h : Hotel}
    (hm : h ∈ best_hotels d b) : h ∈ filtered_hotels (candidate_hotels d) b := by
  unfold best_hotels at hm
  exact (List.perm_insertionSort hotelOrder _).subset (List.take_subset 3 _ hm)

theorem best_hotels_paris_mid :
    best_hotels "Paris" "mid" =
      [hotel_le_meurice, hotel_grands_boulevards, hotel_malte_opera] := by
  have hc : candidate_hotels "Paris" = paris_hotels := rfl
  have hf : filtered_hotels paris_hotels "mid" = paris_hotels := rfl
  rw [best_hotels, hc, hf]
  norm_num [paris_hotels, List.insertionSort, List.orderedInsert, hotelOrder,
    hotel_grands_boulevards, hotel_le_meurice, hotel_malte_opera]

theorem best_hotels_paris_low :
    best_hotels "Paris" "low" = [hotel_malte_opera] := by
  have hc : candidate_hotels "Paris" = paris_hotels := rfl
  rw [best_hotels, hc]
  norm_num [filtered_hotels, paris_hotels, List.insertionSort, List.orderedInsert,
    hotelOrder, hotel_grands_boulevards, hotel_le_meurice, hotel_malte_opera]

theorem avg_paris_mid : avg_price (best_hotels "Paris" "mid") = 1325 / 3 := by
  rw [best_hotels_paris_mid]
  unfold avg_price
  rw [if_pos (by simp)]
  norm_num [hotel_grands_boulevards, hotel_le_meurice, hotel_malte_opera]

theorem search_trip_best_hotels_eq (request : TripSearchRequest) (today : ℤ)
    (llm : Except String String) (rec : TripRecommendation)
    (h : search_trip request today llm = some rec) :
    rec.best_hotels = best_hotels request.destination request.budget_range := by
  unfold search_trip at h
  cases hco : fromisoformat request.checkout_date with
  | none => rw [hco] at h; exact absurd h (by simp)
  | some checkout =>
    cases hci : fromisoformat request.checkin_date with
    | none => rw [hco, hci] at h; exact absurd h (by simp)
    | some checkin =>
      rw [hco, hci] at h
      simp only [Option.some.injEq] at h
      rw [← h]

theorem search_trip_cost (request : TripSearchRequest) (today : ℤ)
    (llm : Except String String) (checkin checkout : ℤ)
    (hci : fromisoformat request.checkin_date = some checkin)
    (hco : fromisoformat request.checkout_date = some checkout) :
    (search_trip request today llm).map TripRecommendation.estimated_total_cost =
      some (pyRound2 (avg_price (best_hotels request.destination request.budget_range) *
        ((checkout - checkin : ℤ) : ℚ) * (request.guests : ℚ))) := by
  unfold search_trip
  rw [hco, hci]
  rfl

theorem search_trip_paris_example :
    search_trip ⟨"Paris", "2025-01-01", "2025-01-02", 1, "mid"⟩ 0 (Except.ok "ok") =
      some { destination := "Paris",
             best_hotels := [hotel_le_meurice, hotel_grands_boulevards, hotel_malte_opera],
             weather_info := get_weather_data "Paris" 0,
             ai_suggestions := "ok",
             estimated_total_cost := 44167 / 100 } := by
  have hci : fromisoformat "2025-01-01" = some 20089 := rfl
  have hco : fromisoformat "2025-01-02" = some 20090 := rfl
  unfold search_trip
  rw [hco, hci]
  simp only [Option.some.injEq]
  refine TripRecommendation.mk.injEq _ _ _ _ _ _ _ _ _ _ |>.mpr ?_
  refine ⟨rfl, best_hotels_paris_mid, rfl, ?_, ?_⟩
  · rw [get_ai_recommendations]
  · rw [avg_paris_mid]
    norm_num [pyRound2, roundHalfEven]

theorem best_hotels_paris_high :
    best_hotels "Paris" "high" = [hotel_le_meurice] := by
  have hc : candidate_hotels "Paris" = paris_hotels := rfl
  rw [best_hotels, hc]
  norm_num [filtered_hotels, paris_hotels, List.insertionSort, List.orderedInsert,
    hotelOrder, hotel_grands_boulevards, hotel_le_meurice, hotel_malte_opera]

/-! ## Claim theorems -/

/-- C1: For every trip search request, the hotel filtering step of
`search_trip` satisfies: if budget_range is "low", every hotel in the
returned best_hotels list has price_per_night < 200; if budget_range is
"high", every returned hotel has price_per_night > 400; for "mid" or any
other budget_range value no price constraint is applied — the candidate
list is passed through unfiltered. -/
theorem budget_filter_spec (request : TripSearchRequest) :
    (request.budget_range = "low" →
      ∀ h ∈ best_hotels request.destination request.budget_range,
        h.price_per_night < 200) ∧
    (request.budget_range = "high" →
      ∀ h ∈ best_hotels request.destination request.budget_range,
        h.price_per_night > 400) ∧
    (request.budget_range ≠ "low" → request.budget_range ≠ "high" →
      filtered_hotels (candidate_hotels request.destination) request.budget_range =
        candidate_hotels request.destination) := by
  refine ⟨?_, ?_, ?_⟩
  · intro hb h hm
    have hmem := mem_filtered_of_mem_best hm
    rw [hb] at hmem
    unfold filtered_hotels at hmem
    rw [if_pos rfl] at hmem
    simpa using (List.mem_filter.mp hmem).2
  · intro hb h hm
    have hmem := mem_filtered_of_mem_best hm
    rw [hb] at hmem
    unfold filtered_hotels at hmem
    rw [if_neg (by decide), if_pos rfl] at hmem
    simpa using (List.mem_filter.mp hmem).2
  · intro h1 h2
    unfold filtered_hotels
    rw [if_neg h1, if_neg h2]

/-- Witness for `budget_filter_spec`: all three budget branches at
concrete Paris requests. -/
theorem budget_filter_spec_witness :
    hotel_malte_opera.price_per_night < 200 ∧
    hotel_le_meurice.price_per_night > 400 ∧
    filtered_hotels (candidate_hotels "Paris") "mid" = candidate_hotels "Paris" := by
  refine ⟨?_, ?_, ?_⟩
  · exact (budget_filter_spec ⟨"Paris", "2025-01-01", "2025-01-02", 2, "low"⟩).1 rfl
      hotel_malte_opera
      (by show hotel_malte_opera ∈ best_hotels "Paris" "low"
          rw [best_hotels_paris_low]; exact List.mem_singleton_self _)
  · exact (budget_filter_spec ⟨"Paris", "2025-01-01", "2025-01-02", 2, "high"⟩).2.1 rfl
      hotel_le_meurice
      (by show hotel_le_meurice ∈ best_hotels "Paris" "high"
          rw [best_hotels_paris_high]; exact List.mem_singleton_self _)
  · exact (budget_filter_spec ⟨"Paris", "2025-01-01", "2025-01-02", 2, "mid"⟩).2.2
      (by decide) (by decide)

/-- C2: every best_hotels list returned by `search_trip` is sorted by
descending rating with ties broken by ascending price_per_night, and has
length at most 3. -/
theorem best_hotels_sorted (request : TripSearchRequest) (today : ℤ)
    (llm : Except String String) :
    ∀ rec ∈ search_trip request today llm,
      List.Pairwise (fun a b : Hotel => b.rating < a.rating ∨
        (a.rating = b.rating ∧ a.price_per_night ≤ b.price_per_night))
        rec.best_hotels ∧
      rec.best_hotels.length ≤ 3 := by
  intro rec hrec
  rw [Option.mem_def] at hrec
  rw [search_trip_best_hotels_eq request today llm rec hrec]
  constructor
  · unfold best_hotels
    exact List.Pairwise.sublist (List.take_sublist _ _)
      (List.sorted_insertionSort hotelOrder _)
  · unfold best_hotels
    rw [List.length_take]
    exact min_le_left _ _

/-- Witness for `best_hotels_sorted` at the Paris example request. -/
theorem best_hotels_sorted_witness :
    List.Pairwise (fun a b : Hotel => b.rating < a.rating ∨
        (a.rating = b.rating ∧ a.price_per_night ≤ b.price_per_night))
      [hotel_le_meurice, hotel_grands_boulevards, hotel_malte_opera] ∧
    ([hotel_le_meurice, hotel_grands_boulevards, hotel_malte_opera] :
      List Hotel).length ≤ 3 :=
  best_hotels_sorted ⟨"Paris", "2025-01-01", "2025-01-02", 1, "mid"⟩ 0
    (Except.ok "ok")
    { destination := "Paris",
      best_hotels := [hotel_le_meurice, hotel_grands_boulevards, hotel_malte_opera],
      weather_info := get_weather_data "Paris" 0,
      ai_suggestions := "ok",
      estimated_total_cost := 44167 / 100 }
    (by rw [Option.mem_def, search_trip_paris_example])

/-- C3 counterexample: at the concrete request below (destination
"Paris", 1 night, 1 guest, budget "mid") the returned
estimated_total_cost is 441.67, while the average selected price times
nights times guests is 1325/3 = 441.666…; the claim's exact equality
fails because the code rounds to two decimal places. -/
theorem estimated_cost_counterexample :
    (search_trip ⟨"Paris", "2025-01-01", "2025-01-02", 1, "mid"⟩ 0
        (Except.ok "ok")).map TripRecommendation.estimated_total_cost =
      some (44167 / 100 : ℚ) ∧
    avg_price (best_hotels "Paris" "mid") * ((1 : ℤ) : ℚ) * ((1 : ℤ) : ℚ) ≠
      (44167 / 100 : ℚ) := by
  constructor
  · rw [search_trip_paris_example]; rfl
  · rw [avg_paris_mid]; norm_num

/-- C3 (amended): for every trip search request whose dates parse and
whose night count is ≥ 0, the estimated_total_cost equals the average
price_per_night over the selected best_hotels (or the fixed default 200
when the selection is empty — never dividing by zero) multiplied by the
number of nights and by the guest count, rounded to two decimal places. -/
theorem estimated_cost_formula (request : TripSearchRequest) (today : ℤ)
    (llm : Except String String) (checkin checkout : ℤ)
    (hci : fromisoformat request.checkin_date = some checkin)
    (hco : fromisoformat request.checkout_date = some checkout)
    (hnights : 0 ≤ checkout - checkin) :
    (search_trip request today llm).map TripRecommendation.estimated_total_cost =
      some (pyRound2 (avg_price (best_hotels request.destination request.budget_range) *
        ((checkout - checkin : ℤ) : ℚ) * (request.guests : ℚ))) ∧
    avg_price [] = 200 :=
  ⟨search_trip_cost request today llm checkin checkout hci hco, by simp [avg_price]⟩

/-- Witness for `estimated_cost_formula` at a concrete request. -/
theorem estimated_cost_formula_witness :
    (search_trip ⟨"Paris", "2025-01-01", "2025-01-02", 2, "mid"⟩ 0
        (Except.ok "ok")).map TripRecommendation.estimated_total_cost =
      some (pyRound2 (avg_price (best_hotels "Paris" "mid") *
        ((20090 - 20089 : ℤ) : ℚ) * ((2 : ℤ) : ℚ))) ∧
    avg_price [] = 200 :=
  estimated_cost_formula ⟨"Paris", "2025-01-01", "2025-01-02", 2, "mid"⟩ 0
    (Except.ok "ok") 20089 20090 rfl rfl (by decide)

/-- C4: the cost-estimation step does not validate the date order: at the
request below (checkin 2024-12-20, checkout 2024-12-18, 1 guest, budget
"mid", destination "Paris") `search_trip` succeeds and silently returns
the negative estimated_total_cost -883.33 instead of rejecting the
request. -/
theorem reversed_dates_negative_cost :
    (search_trip ⟨"Paris", "2024-12-20", "2024-12-18", 1, "mid"⟩ 0
        (Except.ok "ok")).map TripRecommendation.estimated_total_cost =
      some (-88333 / 100 : ℚ) ∧
    (-88333 / 100 : ℚ) < 0 := by
  constructor
  · rw [search_trip_cost ⟨"Paris", "2024-12-20", "2024-12-18", 1, "mid"⟩ 0
      (Except.ok "ok") 20077 20075 rfl rfl]
    show some (pyRound2 (avg_price (best_hotels "Paris" "mid") *
      ((20075 - 20077 : ℤ) : ℚ) * ((1 : ℤ) : ℚ))) = some (-88333 / 100 : ℚ)
    rw [avg_paris_mid]
    norm_num [pyRound2, roundHalfEven]
  · norm_num

/-- C5: the `/weather` endpoint never returns 404: for the unresolvable
location "InvalidLocationXYZ123" (not a key of the static weather table)
the handler still succeeds, answering the default weather data — in
contradiction with the claim and with the repository's own test
(`test_error_handling` in `backend_test.py` expects 404 for this very
location). -/
theorem weather_unknown_location_still_ok :
    weather_data_get (pyStrip (pyLower "InvalidLocationXYZ123")) = default_weather ∧
    get_weather "InvalidLocationXYZ123" 0 =
      Except.ok (get_weather_data "InvalidLocationXYZ123" 0) ∧
    (get_weather_data "InvalidLocationXYZ123" 0).temperature = 20 ∧
    (get_weather_data "InvalidLocationXYZ123" 0).condition = "Clear" :=
  ⟨rfl, rfl, rfl, rfl⟩

theorem adjustForecast_five (today : ℤ) (a b c d e : RawForecast) :
    ((adjustForecast today 0 [a, b, c, d, e]).map ForecastDay.date) =
      [today, today + 1, today + 2, today + 3, today + 4] ∧
    (adjustForecast today 0 [a, b, c, d, e]).length = 5 := by
  constructor
  · show [today + ((0 : ℕ) : ℤ), today + ((1 : ℕ) : ℤ), today + ((2 : ℕ) : ℤ),
      today + ((3 : ℕ) : ℤ), today + ((4 : ℕ) : ℤ)] = _
    norm_num
  · rfl

/-- C6: for every location and request day, the weather lookup returns a
forecast_days list of exactly 5 entries whose dates are the 5 strictly
increasing consecutive days starting from the request day. -/
theorem forecast_five_consecutive (location : String) (today : ℤ) :
    (get_weather_data location today).forecast_days.length = 5 ∧
    (get_weather_data location today).forecast_days.map ForecastDay.date =
      [today, today + 1, today + 2, today + 3, today + 4] := by
  unfold get_weather_data weather_data_get
  split_ifs <;>
    exact ⟨(adjustForecast_five today _ _ _ _ _).2, (adjustForecast_five today _ _ _ _ _).1⟩

/-- C7: a trip search whose normalised destination is not one of the
three mock-table keys gets the fixed generic two-hotel fallback list
("Grand Hotel" at 250 and "Budget Inn" at 120) as its candidate list. -/
theorem unknown_destination_fallback (destination : String)
    (h1 : destination_key destination ≠ "paris")
    (h2 : destination_key destination ≠ "tokyo")
    (h3 : destination_key destination ≠ "new york") :
    candidate_hotels destination = fallback_hotels ∧
    fallback_hotels.map (fun h => (h.name, h.price_per_night)) =
      [("Grand Hotel", 250), ("Budget Inn", 120)] := by
  refine ⟨?_, rfl⟩
  unfold candidate_hotels MOCK_HOTELS_get
  rw [if_neg h1, if_neg h2, if_neg h3]

/-- Witness for `unknown_destination_fallback` at destination
"Atlantis". -/
theorem unknown_destination_fallback_witness :
    candidate_hotels "Atlantis" = fallback_hotels ∧
    fallback_hotels.map (fun h => (h.name, h.price_per_night)) =
      [("Grand Hotel", 250), ("Budget Inn", 120)] :=
  unknown_destination_fallback "Atlantis" (by decide) (by decide) (by decide)

/-- C8: if the external text-generation call fails for any reason, the
recommendation step returns the deterministic templated fallback sentence
referencing the destination and the current weather (temperature and
condition), and `search_trip` still succeeds, with the fallback text as
its ai_suggestions. -/
theorem ai_failure_swallowed (request : TripSearchRequest) (today : ℤ)
    (e : String) (checkin checkout : ℤ)
    (hci : fromisoformat request.checkin_date = some checkin)
    (hco : fromisoformat request.checkout_date = some checkout) :
    (∀ (hotels : List Hotel) (weather : WeatherInfo),
      get_ai_recommendations request.destination hotels weather
          request.budget_range (Except.error e) =
        fallback_suggestion request.destination weather) ∧
    fallback_suggestion request.destination
        (get_weather_data request.destination today) =
      "Welcome to " ++ request.destination ++ "! Based on the current weather (" ++
        pyFloatRepr (get_weather_data request.destination today).temperature ++
        "°C, " ++ (get_weather_data request.destination today).condition ++
        "), it\x27s a great time to explore. Consider the top-rated hotels in your budget range and don\x27t miss the local cuisine!" ∧
    (search_trip request today (Except.error e)).map
        TripRecommendation.ai_suggestions =
      some (fallback_suggestion request.destination
        (get_weather_data request.destination today)) := by
  refine ⟨fun hotels weather => rfl, rfl, ?_⟩
  unfold search_trip
  rw [hco, hci]
  rfl

/-- Witness for `ai_failure_swallowed` at a concrete failing request. -/
theorem ai_failure_swallowed_witness :
    get_ai_recommendations "Paris" fallback_hotels (get_weather_data "Paris" 0)
        "mid" (Except.error "timeout") =
      fallback_suggestion "Paris" (get_weather_data "Paris" 0) ∧
    (search_trip ⟨"Paris", "2025-01-01", "2025-01-02", 2, "mid"⟩ 0
        (Except.error "timeout")).map TripRecommendation.ai_suggestions =
      some (fallback_suggestion "Paris" (get_weather_data "Paris" 0)) := by
  have h := ai_failure_swallowed ⟨"Paris", "2025-01-01", "2025-01-02", 2, "mid"⟩ 0
    "timeout" 20089 20090 rfl rfl
  exact ⟨h.1 fallback_hotels (get_weather_data "Paris" 0), h.2.2⟩

/-- C9: `search_trip` normalises the destination by lowercasing and
removing all spaces, but the mock hotel table's key "new york" contains a
space; hence every destination normalising to "newyork" — "New York" in
any casing or spacing — gets the generic fallback hotels instead of the
table's New York entries. -/
theorem new_york_misses_table (destination : String)
    (h : destination_key destination = "newyork") :
    candidate_hotels destination = fallback_hotels ∧
    MOCK_HOTELS_get "new york" = new_york_hotels ∧
    fallback_hotels ≠ new_york_hotels := by
  refine ⟨?_, rfl, ?_⟩
  · unfold candidate_hotels MOCK_HOTELS_get
    rw [h]
    rfl
  · intro hcontra
    exact absurd (congrArg (List.map Hotel.name) hcontra) (by decide)

/-- Witness for `new_york_misses_table` at destination "New York". -/
theorem new_york_misses_table_witness :
    candidate_hotels "New York" = fallback_hotels ∧
    MOCK_HOTELS_get "new york" = new_york_hotels ∧
    fallback_hotels ≠ new_york_hotels :=
  new_york_misses_table "New York" (by decide)

/-- C10: the weather lookup is total: for every input string it returns a
WeatherInfo whose location is the title-cased input, and an input whose
lowercased, stripped form is not a key of the static table gets the
fixed default weather data (temperature 20, condition "Clear", humidity
60, wind speed 10) instead of failing. -/
theorem weather_total_default (location : String) (today : ℤ) :
    (get_weather_data location today).location = pyTitle location ∧
    (pyStrip (pyLower location) ∉
        (["paris", "tokyo", "new york", "london", "barcelona", "rome"] :
          List String) →
      (get_weather_data location today).temperature = 20 ∧
      (get_weather_data location today).condition = "Clear" ∧
      (get_weather_data location today).humidity = 60 ∧
      (get_weather_data location today).wind_speed = 10) := by
  refine ⟨rfl, ?_⟩
  intro hnot
  simp only [List.mem_cons, List.not_mem_nil, or_false, not_or] at hnot
  obtain ⟨h1, h2, h3, h4, h5, h6⟩ := hnot
  unfold get_weather_data weather_data_get
  rw [if_neg h1, if_neg h2, if_neg h3, if_neg h4, if_neg h5, if_neg h6]
  exact ⟨rfl, rfl, rfl, rfl⟩

/-- Witness for `weather_total_default` at location "Atlantis". -/
theorem weather_total_default_witness :
    (get_weather_data "Atlantis" 0).location = pyTitle "Atlantis" ∧
    ((get_weather_data "Atlantis" 0).temperature = 20 ∧
     (get_weather_data "Atlantis" 0).condition = "Clear" ∧
     (get_weather_data "Atlantis" 0).humidity = 60 ∧
     (get_weather_data "Atlantis" 0).wind_speed = 10) :=
  ⟨(weather_total_default "Atlantis" 0).1,
   (weather_total_default "Atlantis" 0).2 (by decide)⟩

end TravelPlanner
